import Mathlib

/-!
Formal model of the SaarthiAI rule-based recommendation pipeline
(profile validation, profile analysis, blindspot identification,
opportunity matching, explanation generation and the orchestrating
application controller), translated from the Python sources in
`saarthi_ai/`.  Relevance scores, which the Python code keeps as floats,
are modelled as rational numbers; the fixed decimal constants of the
source are written as explicitly reduced fractions so that concrete
comparisons evaluate inside the kernel, with bridging lemmas giving the
usual `n/d` form.
-/

/-! ## String helpers (case-insensitive substring tests, trimming) -/

/-- Lowercase every character of a string (model of Python `str.lower()`). -/
def lowerStr (s : String) : String := ⟨s.data.map Char.toLower⟩

/-- Does `needle` occur at the head of `hay`? -/
def startsList : List Char → List Char → Bool
  | [], _ => true
  | _ :: _, [] => false
  | a :: as, b :: bs => a == b && startsList as bs

/-- Does `needle` occur contiguously anywhere in `hay`?  Model of Python
`needle in hay` on strings. -/
def containsList (needle : List Char) : List Char → Bool
  | [] => needle.isEmpty
  | b :: bs => startsList needle (b :: bs) || containsList needle bs

/-- String-level wrapper of `containsList`. -/
def containsSub (needle hay : String) : Bool := containsList needle.data hay.data

/-- Strip leading and trailing whitespace (model of Python `str.strip()`). -/
def trimStr (s : String) : String :=
  ⟨((s.data.dropWhile Char.isWhitespace).reverse.dropWhile Char.isWhitespace).reverse⟩

/-! ## The decimal score constants of the source, as reduced fractions -/

def q0_1 : ℚ := ⟨1, 10, by decide, by decide⟩
def q0_15 : ℚ := ⟨3, 20, by decide, by decide⟩
def q0_2 : ℚ := ⟨1, 5, by decide, by decide⟩
def q0_3 : ℚ := ⟨3, 10, by decide, by decide⟩
def q0_35 : ℚ := ⟨7, 20, by decide, by decide⟩
def q0_4 : ℚ := ⟨2, 5, by decide, by decide⟩
def q0_45 : ℚ := ⟨9, 20, by decide, by decide⟩
def q0_5 : ℚ := ⟨1, 2, by decide, by decide⟩
def q0_55 : ℚ := ⟨11, 20, by decide, by decide⟩
def q0_58 : ℚ := ⟨29, 50, by decide, by decide⟩
def q0_6 : ℚ := ⟨3, 5, by decide, by decide⟩
def q0_65 : ℚ := ⟨13, 20, by decide, by decide⟩
def q0_7 : ℚ := ⟨7, 10, by decide, by decide⟩
def q0_8 : ℚ := ⟨4, 5, by decide, by decide⟩
def q0_85 : ℚ := ⟨17, 20, by decide, by decide⟩
def q0_9 : ℚ := ⟨9, 10, by decide, by decide⟩

theorem q0_1_val : q0_1 = 1/10 := by unfold q0_1; apply Rat.ext <;> norm_num
theorem q0_15_val : q0_15 = 15/100 := by unfold q0_15; apply Rat.ext <;> norm_num
theorem q0_2_val : q0_2 = 2/10 := by unfold q0_2; apply Rat.ext <;> norm_num
theorem q0_3_val : q0_3 = 3/10 := by unfold q0_3; apply Rat.ext <;> norm_num
theorem q0_35_val : q0_35 = 35/100 := by unfold q0_35; apply Rat.ext <;> norm_num
theorem q0_4_val : q0_4 = 4/10 := by unfold q0_4; apply Rat.ext <;> norm_num
theorem q0_45_val : q0_45 = 45/100 := by unfold q0_45; apply Rat.ext <;> norm_num
theorem q0_5_val : q0_5 = 5/10 := by unfold q0_5; apply Rat.ext <;> norm_num
theorem q0_55_val : q0_55 = 55/100 := by unfold q0_55; apply Rat.ext <;> norm_num
theorem q0_58_val : q0_58 = 58/100 := by unfold q0_58; apply Rat.ext <;> norm_num
theorem q0_6_val : q0_6 = 6/10 := by unfold q0_6; apply Rat.ext <;> norm_num
theorem q0_65_val : q0_65 = 65/100 := by unfold q0_65; apply Rat.ext <;> norm_num
theorem q0_7_val : q0_7 = 7/10 := by unfold q0_7; apply Rat.ext <;> norm_num
theorem q0_8_val : q0_8 = 8/10 := by unfold q0_8; apply Rat.ext <;> norm_num
theorem q0_85_val : q0_85 = 85/100 := by unfold q0_85; apply Rat.ext <;> norm_num
theorem q0_9_val : q0_9 = 9/10 := by unfold q0_9; apply Rat.ext <;> norm_num

/-! ## Data model (`saarthi_ai/models.py`) -/

inductive EducationLevel where
  | diploma
  | ug
  | pg
  | phd
deriving DecidableEq

def EducationLevel.value : EducationLevel → String
  | .diploma => "Diploma"
  | .ug => "UG"
  | .pg => "PG"
  | .phd => "PhD"

inductive InstitutionType where
  | government
  | privateInstitution
  | autonomous
  | openInstitution
deriving DecidableEq

def InstitutionType.value : InstitutionType → String
  | .government => "Government"
  | .privateInstitution => "Private"
  | .autonomous => "Autonomous"
  | .openInstitution => "Open"

inductive BackgroundIndicator where
  | rural
  | firstGeneration
  | financialSupport
  | disabled
  | minority
deriving DecidableEq

def BackgroundIndicator.value : BackgroundIndicator → String
  | .rural => "Rural"
  | .firstGeneration => "First-generation"
  | .financialSupport => "Financial support"
  | .disabled => "Disabled"
  | .minority => "Minority"

inductive OpportunityGoal where
  | scholarships
  | internships
  | research
  | skills
  | govtExams
deriving DecidableEq

def OpportunityGoal.value : OpportunityGoal → String
  | .scholarships => "Scholarships"
  | .internships => "Internships"
  | .research => "Research"
  | .skills => "Skills"
  | .govtExams => "Govt Exams"

inductive MissedOpportunityFrequency where
  | yesManyTimes
  | onceOrTwice
  | no
deriving DecidableEq

inductive MissProbability where
  | high
  | medium
  | low
deriving DecidableEq

inductive VisibilityLevel where
  | high
  | medium
  | low
deriving DecidableEq

inductive ImpactLevel where
  | high
  | medium
  | low
deriving DecidableEq

def ImpactLevel.value : ImpactLevel → String
  | .high => "High"
  | .medium => "Medium"
  | .low => "Low"

inductive AwarenessLevel where
  | low
  | medium
  | high
deriving DecidableEq

/-- Student profile (dataclass `StudentProfile`).  The enum-typed and
int-typed fields follow the dataclass annotations; the two optional
fields are `Option`-typed exactly as in the source. -/
structure StudentProfile where
  name : String
  age : Int
  education_level : EducationLevel
  degree : String
  field_of_study : String
  year_of_study : Int
  institution_type : InstitutionType
  background_indicators : List BackgroundIndicator
  opportunity_goals : List OpportunityGoal
  missed_opportunities_before : MissedOpportunityFrequency
  gender : Option String
  additional_context : Option String
deriving DecidableEq

structure EligibilityCriteria where
  education_levels : List EducationLevel
  fields_of_study : Option (List String)
  institution_types : Option (List InstitutionType)
  background_requirements : Option (List BackgroundIndicator)
  income_based : Bool
  merit_based : Bool
deriving DecidableEq

structure Opportunity where
  id : String
  name : String
  description : String
  eligibility_criteria : EligibilityCriteria
  visibility_level : VisibilityLevel
  impact_level : ImpactLevel
  category : String
deriving DecidableEq

structure Blindspot where
  category : String
  reason : String
  relevance_score : ℚ
deriving DecidableEq

structure OpportunityMatch where
  opportunity : Opportunity
  fit_explanation : String
  miss_reason : String
  miss_probability : MissProbability
  relevance_score : ℚ
deriving DecidableEq

structure ProfileAnalysis where
  key_characteristics : List String
  eligibility_tags : List String
  awareness_level : AwarenessLevel
  priority_goals : List OpportunityGoal
deriving DecidableEq

/-- Model of `StudentProfile.validate`: required-field presence checks, in
source order.  The source also guards each non-string field with
`is None`; those fields are typed non-optional by the dataclass
annotations, so the `None` cases are not representable here. -/
def StudentProfile.validate (p : StudentProfile) : Bool × List String :=
  let missing : List String := []
  let missing := if (trimStr p.name).data.isEmpty then missing ++ ["name"] else missing
  let missing := if p.age ≤ 0 then missing ++ ["age"] else missing
  let missing := if (trimStr p.degree).data.isEmpty then missing ++ ["degree"] else missing
  let missing := if (trimStr p.field_of_study).data.isEmpty then missing ++ ["field_of_study"] else missing
  let missing := if p.year_of_study ≤ 0 then missing ++ ["year_of_study"] else missing
  let missing := if p.opportunity_goals.isEmpty then missing ++ ["opportunity_goals"] else missing
  (missing.isEmpty, missing)

/-! ## Profile analyzer (`saarthi_ai/profile_analyzer.py`) -/

def extract_characteristics (p : StudentProfile) : List String :=
  [p.education_level.value, p.field_of_study, p.institution_type.value]
    ++ p.background_indicators.map BackgroundIndicator.value

def extract_eligibility_tags (p : StudentProfile) : List String :=
  p.background_indicators.map BackgroundIndicator.value

def map_awareness_level : MissedOpportunityFrequency → AwarenessLevel
  | .yesManyTimes => .low
  | .onceOrTwice => .medium
  | .no => .high

/-- Model of `ProfileAnalyzer.analyze`. -/
def analyze (p : StudentProfile) : ProfileAnalysis :=
  ⟨extract_characteristics p, extract_eligibility_tags p,
    map_awareness_level p.missed_opportunities_before, p.opportunity_goals⟩

/-! ## Blindspot identifier (`saarthi_ai/blindspot_identifier.py`) -/

def STEM_FIELDS : List String :=
  ["Computer Science", "Engineering", "Mathematics", "Physics",
   "Chemistry", "Biology", "Statistics", "Data Science",
   "Information Technology", "Electronics", "Mechanical",
   "Civil", "Chemical", "Biotechnology"]

def has_financial_background (eligibility_tags : List String) : Bool :=
  decide (BackgroundIndicator.financialSupport.value ∈ eligibility_tags)

def is_stem_field (field_of_study : String) : Bool :=
  STEM_FIELDS.any fun stem => containsSub (lowerStr stem) (lowerStr field_of_study)

/-- Model of `_has_special_category`: female gender (with Python's
truthiness test on the string) or a Disabled background tag. -/
def has_special_category (gender : Option String) (eligibility_tags : List String) : Bool :=
  (match gender with
   | some g => !(g.data.isEmpty) && decide (lowerStr g ∈ ["female", "woman", "f"])
   | none => false)
  || decide (BackgroundIndicator.disabled.value ∈ eligibility_tags)

/-- Model of `_mentions_innovation` (empty or absent context is falsy). -/
def mentions_innovation (additional_context : Option String) : Bool :=
  match additional_context with
  | none => false
  | some c =>
    !(c.data.isEmpty) &&
      (["innovation", "innovate", "innovative", "startup", "entrepreneur"].any
        fun keyword => containsSub keyword (lowerStr c))

/-- The fixed blindspot each rule appends (rules 1-12, in source order). -/
def bsIncomeScholarships : Blindspot :=
  ⟨"Income-based Central Government Scholarships",
   "Many students don't know about central government scholarships that don't require high merit",
   q0_9⟩

def bsResearchStem : Blindspot :=
  ⟨"Research Internships and Programs",
   "STEM students often focus on placements and miss research opportunities from national platforms",
   q0_8⟩

def bsStateMerit : Blindspot :=
  ⟨"State-level Merit Scholarships",
   "State scholarships have poor visibility compared to national programs",
   q0_7⟩

def bsCategorySpecific : Blindspot :=
  ⟨"Category-specific Technical Scholarships",
   "Technical scholarships for specific categories are often under-promoted in colleges",
   q0_85⟩

def bsInnovationSkill : Blindspot :=
  ⟨"Government Innovation and Skill Programs",
   "Innovation programs are often buried in government websites with poor outreach",
   q0_6⟩

def bsInternships : Blindspot :=
  ⟨"Industry and Government Internships",
   "Many internship programs beyond campus placements remain unknown to students",
   q0_65⟩

def bsGovtExamPrep : Blindspot :=
  ⟨"Government Exam Preparation Resources",
   "Free government resources for exam preparation are often overlooked",
   q0_55⟩

def bsInterdisciplinary : Blindspot :=
  ⟨"Interdisciplinary Research Programs",
   "Research opportunities exist beyond traditional STEM fields but are rarely promoted",
   q0_58⟩

def bsGeneralScholarship : Blindspot :=
  ⟨"Merit and Need-based Scholarships",
   "Many scholarship programs exist beyond the well-known ones, but lack awareness",
   q0_5⟩

def bsSkillDevelopment : Blindspot :=
  ⟨"Skill Development and Certification Programs",
   "Free skill development programs from government and institutions often go unnoticed",
   q0_45⟩

def bsAcademicEnhancement : Blindspot :=
  ⟨"Academic Enhancement Programs",
   "Programs for academic growth beyond regular curriculum are rarely promoted",
   q0_4⟩

def bsCareerGuidance : Blindspot :=
  ⟨"Career Guidance and Mentorship Programs",
   "Structured career guidance programs from institutions and government are underutilized",
   q0_35⟩

/-- Append `b` when `c` holds (one `if cond: blindspots.append(...)` step). -/
def condAppend (c : Bool) (b : Blindspot) (bs : List Blindspot) : List Blindspot :=
  if c then bs ++ [b] else bs

/-- Rules 1-8 of `identify_blindspots`, applied in source order. -/
def primaryRules (p : StudentProfile) (a : ProfileAnalysis) : List Blindspot :=
  condAppend
    (decide (OpportunityGoal.research ∈ a.priority_goals) && !(is_stem_field p.field_of_study))
    bsInterdisciplinary
    (condAppend (decide (OpportunityGoal.govtExams ∈ a.priority_goals)) bsGovtExamPrep
      (condAppend (decide (OpportunityGoal.internships ∈ a.priority_goals)) bsInternships
        (condAppend
          (decide (OpportunityGoal.skills ∈ a.priority_goals) ||
            mentions_innovation p.additional_context)
          bsInnovationSkill
          (condAppend (has_special_category p.gender a.eligibility_tags) bsCategorySpecific
            (condAppend
              (decide (p.institution_type ∈
                  [InstitutionType.government, InstitutionType.autonomous]) &&
                decide (OpportunityGoal.scholarships ∈ a.priority_goals))
              bsStateMerit
              (condAppend
                (is_stem_field p.field_of_study &&
                  decide (p.education_level ∈ [EducationLevel.ug, EducationLevel.pg]))
                bsResearchStem
                (condAppend
                  (has_financial_background a.eligibility_tags &&
                    decide (OpportunityGoal.scholarships ∈ a.priority_goals))
                  bsIncomeScholarships
                  [])))))))

/-- Rule 9: the scholarship fallback, conditioned on fewer than 3
blindspots so far and a Scholarships goal. -/
def rulesThrough9 (p : StudentProfile) (a : ProfileAnalysis) : List Blindspot :=
  condAppend
    (decide ((primaryRules p a).length < 3) &&
      decide (OpportunityGoal.scholarships ∈ a.priority_goals))
    bsGeneralScholarship (primaryRules p a)

/-- Rule 10: the skill-development fallback. -/
def rulesThrough10 (p : StudentProfile) (a : ProfileAnalysis) : List Blindspot :=
  condAppend (decide ((rulesThrough9 p a).length < 3)) bsSkillDevelopment (rulesThrough9 p a)

/-- Rule 11: the academic-enhancement fallback. -/
def rulesThrough11 (p : StudentProfile) (a : ProfileAnalysis) : List Blindspot :=
  condAppend (decide ((rulesThrough10 p a).length < 3)) bsAcademicEnhancement (rulesThrough10 p a)

/-- Rule 12 (the final fallback); the full accumulated rule output of
`identify_blindspots` before sorting. -/
def ruleBlindspots (p : StudentProfile) (a : ProfileAnalysis) : List Blindspot :=
  condAppend (decide ((rulesThrough11 p a).length < 3)) bsCareerGuidance (rulesThrough11 p a)

/-! ## A stable descending sort by a rational key, modelling Python's
stable `list.sort(key=..., reverse=True)` -/

/-- Insert `x` before the first element whose key is not strictly greater:
among equal keys, previously present elements that compare equal to `x`
stay after `x` only if they were already ahead of strictly greater keys —
i.e. ties keep their original relative order. -/
def insertByKey {α : Type} (key : α → ℚ) (x : α) : List α → List α
  | [] => [x]
  | y :: ys => if key x < key y then y :: insertByKey key x ys else x :: y :: ys

/-- Stable insertion sort, descending by `key`. -/
def sortByKeyDesc {α : Type} (key : α → ℚ) : List α → List α
  | [] => []
  | x :: xs => insertByKey key x (sortByKeyDesc key xs)

/-- Descending-sortedness by a key. -/
def SortedDesc {α : Type} (key : α → ℚ) (l : List α) : Prop :=
  l.Pairwise fun x y => key y ≤ key x

theorem mem_insertByKey {α : Type} (key : α → ℚ) (x z : α) (l : List α) :
    z ∈ insertByKey key x l ↔ z = x ∨ z ∈ l := by
  induction l with
  | nil => simp [insertByKey]
  | cons y ys ih =>
    unfold insertByKey
    split
    · simp only [List.mem_cons, ih]
      tauto
    · simp only [List.mem_cons]

theorem length_insertByKey {α : Type} (key : α → ℚ) (x : α) (l : List α) :
    (insertByKey key x l).length = l.length + 1 := by
  induction l with
  | nil => simp [insertByKey]
  | cons y ys ih =>
    unfold insertByKey
    split
    · simp [ih]
    · simp

theorem sorted_insertByKey {α : Type} (key : α → ℚ) (x : α) (l : List α)
    (h : SortedDesc key l) : SortedDesc key (insertByKey key x l) := by
  induction l with
  | nil => simp [insertByKey, SortedDesc]
  | cons y ys ih =>
    rcases List.pairwise_cons.1 h with ⟨hy, hys⟩
    unfold insertByKey
    split
    case isTrue hlt =>
      refine List.pairwise_cons.2 ⟨?_, ih hys⟩
      intro z hz
      rcases (mem_insertByKey key x z ys).1 hz with rfl | hz'
      · exact le_of_lt hlt
      · exact hy z hz'
    case isFalse hge =>
      refine List.pairwise_cons.2 ⟨?_, h⟩
      intro z hz
      rcases List.mem_cons.1 hz with rfl | hz'
      · exact le_of_not_lt hge
      · exact le_trans (hy z hz') (le_of_not_lt hge)

theorem mem_sortByKeyDesc {α : Type} (key : α → ℚ) (z : α) (l : List α) :
    z ∈ sortByKeyDesc key l ↔ z ∈ l := by
  induction l with
  | nil => simp [sortByKeyDesc]
  | cons x xs ih =>
    unfold sortByKeyDesc
    rw [mem_insertByKey, ih, List.mem_cons]

theorem length_sortByKeyDesc {α : Type} (key : α → ℚ) (l : List α) :
    (sortByKeyDesc key l).length = l.length := by
  induction l with
  | nil => rfl
  | cons x xs ih =>
    unfold sortByKeyDesc
    rw [length_insertByKey, ih, List.length_cons]

theorem sorted_sortByKeyDesc {α : Type} (key : α → ℚ) (l : List α) :
    SortedDesc key (sortByKeyDesc key l) := by
  induction l with
  | nil => exact List.Pairwise.nil
  | cons x xs ih => exact sorted_insertByKey key x _ ih

/-- Stability of the insertion step: restricted to any fixed key value `s`,
inserting `x` prepends `x` when `key x = s` and changes nothing else. -/
theorem filter_insertByKey {α : Type} (key : α → ℚ) (x : α) (l : List α) (s : ℚ) :
    (insertByKey key x l).filter (fun a => decide (key a = s)) =
      if key x = s then x :: l.filter (fun a => decide (key a = s))
      else l.filter (fun a => decide (key a = s)) := by
  induction l with
  | nil =>
    simp only [insertByKey, List.filter]
    by_cases h : key x = s <;> simp [h]
  | cons y ys ih =>
    unfold insertByKey
    split
    case isTrue hlt =>
      by_cases hx : key x = s
      · have hy : ¬ (key y = s) := by
          intro hy
          rw [hx] at hlt
          rw [hy] at hlt
          exact lt_irrefl s hlt
        simp only [hx, if_true] at ih ⊢
        simp [List.filter_cons, hy, ih]
      · simp only [hx, if_false] at ih ⊢
        by_cases hy : key y = s <;> simp [List.filter_cons, hy, ih]
    case isFalse hge =>
      by_cases hx : key x = s <;> by_cases hy : key y = s <;>
        simp [List.filter_cons, hx, hy]

/-- Stability of the sort: for every key value `s`, the elements whose key
is `s` appear in the sorted output in their original order. -/
theorem filter_sortByKeyDesc {α : Type} (key : α → ℚ) (l : List α) (s : ℚ) :
    (sortByKeyDesc key l).filter (fun a => decide (key a = s)) =
      l.filter (fun a => decide (key a = s)) := by
  induction l with
  | nil => rfl
  | cons x xs ih =>
    unfold sortByKeyDesc
    rw [filter_insertByKey]
    by_cases hx : key x = s <;> simp [List.filter_cons, hx, ih]

/-- Sorting a list with at most one element changes nothing. -/
theorem sortByKeyDesc_short {α : Type} (key : α → ℚ) (l : List α)
    (h : l.length < 2) : sortByKeyDesc key l = l := by
  match l with
  | [] => rfl
  | [x] => rfl
  | x :: y :: t => simp at h; omega

/-! ## The end of `identify_blindspots`: stable sort, length check, raise,
truncation to the first 5 -/

/-- Model of `BlindspotIdentifier.identify_blindspots`.  The
`raise ValueError` branch is modelled as `Except.error`. -/
def identify_blindspots (p : StudentProfile) (a : ProfileAnalysis) :
    Except String (List Blindspot) :=
  let sorted := sortByKeyDesc Blindspot.relevance_score (ruleBlindspots p a)
  if sorted.length < 3 then
    Except.error ("Implementation error: Only " ++ toString sorted.length ++
      " blindspots generated, minimum is 3")
  else
    Except.ok (sorted.take 5)

/-! ## Opportunity knowledge base (`saarthi_ai/knowledge_base.py`) -/

def centralSectorScholarship : Opportunity :=
  ⟨"central-sector-scholarship", "Central Sector Scholarship",
   "Central government scholarship for undergraduate students from families with income below threshold",
   ⟨[EducationLevel.ug], none, none, none, true, false⟩,
   VisibilityLevel.medium, ImpactLevel.high, "Scholarship"⟩

def aictePragati : Opportunity :=
  ⟨"aicte-pragati", "AICTE Pragati",
   "AICTE scholarship for female engineering students",
   ⟨[EducationLevel.ug], some ["Engineering"], none, none, false, false⟩,
   VisibilityLevel.low, ImpactLevel.high, "Scholarship"⟩

def aicteSaksham : Opportunity :=
  ⟨"aicte-saksham", "AICTE Saksham",
   "AICTE scholarship for disabled engineering students",
   ⟨[EducationLevel.ug], some ["Engineering"], none,
    some [BackgroundIndicator.disabled], false, false⟩,
   VisibilityLevel.low, ImpactLevel.high, "Scholarship"⟩

def nptelResearchInternship : Opportunity :=
  ⟨"nptel-research-internship", "NPTEL Research Internship",
   "Research internship program for STEM students",
   ⟨[EducationLevel.ug, EducationLevel.pg],
    some ["Engineering", "Science", "Mathematics", "Computer Science"],
    none, none, false, false⟩,
   VisibilityLevel.medium, ImpactLevel.medium, "Internship"⟩

def stateGovtMeritScholarship : Opportunity :=
  ⟨"state-govt-merit-scholarship", "State Government Merit Scholarships",
   "Merit-based scholarships offered by state governments",
   ⟨[EducationLevel.diploma, EducationLevel.ug, EducationLevel.pg, EducationLevel.phd],
    none, none, none, false, true⟩,
   VisibilityLevel.low, ImpactLevel.medium, "Scholarship"⟩

def moeInnovationPrograms : Opportunity :=
  ⟨"moe-innovation-programs", "Ministry of Education Innovation Programs",
   "Innovation and skill development programs by Ministry of Education",
   ⟨[EducationLevel.diploma, EducationLevel.ug, EducationLevel.pg, EducationLevel.phd],
    none, none, none, false, false⟩,
   VisibilityLevel.low, ImpactLevel.medium, "Program"⟩

/-- The static catalog (`OPPORTUNITIES`), in source order. -/
def OPPORTUNITIES : List Opportunity :=
  [centralSectorScholarship, aictePragati, aicteSaksham,
   nptelResearchInternship, stateGovtMeritScholarship, moeInnovationPrograms]

/-- Model of `get_all_opportunities` (the returned copy is equal as data). -/
def get_all_opportunities : List Opportunity := OPPORTUNITIES

/-! ## Opportunity matcher (`saarthi_ai/opportunity_matcher.py`) -/

/-- Model of `OpportunityMatcher.is_eligible`: the sequential early-return
checks of the source, each set constraint conjoined. -/
def is_eligible (p : StudentProfile) (criteria : EligibilityCriteria) : Bool :=
  if p.education_level ∉ criteria.education_levels then false
  else if (match criteria.fields_of_study with
           | some fs => decide (p.field_of_study ∉ fs)
           | none => false) then false
  else if (match criteria.institution_types with
           | some its => decide (p.institution_type ∉ its)
           | none => false) then false
  else if (match criteria.background_requirements with
           | some reqs => !(reqs.any fun req => decide (req ∈ p.background_indicators))
           | none => false) then false
  else true

/-- Model of `OpportunityMatcher.calculate_miss_probability`. -/
def calculate_miss_probability (visibility_level : VisibilityLevel)
    (awareness_level : AwarenessLevel) : MissProbability :=
  if visibility_level = VisibilityLevel.low then MissProbability.high
  else if visibility_level = VisibilityLevel.medium then
    if awareness_level = AwarenessLevel.low then MissProbability.high
    else if awareness_level = AwarenessLevel.medium then MissProbability.medium
    else MissProbability.low
  else
    if awareness_level = AwarenessLevel.low then MissProbability.medium
    else MissProbability.low

/-- The 14 keyword/category heuristics of `_calculate_blindspot_alignment`
for one blindspot, in source order, as (fires?, value) pairs. -/
def heuristicPairs (opp : Opportunity) (b : Blindspot) : List (Bool × ℚ) :=
  [(containsSub (lowerStr opp.category) (lowerStr b.category), b.relevance_score),
   (containsSub "scholarship" (lowerStr b.category) &&
      decide (lowerStr opp.category = "scholarship"), b.relevance_score),
   (containsSub "research" (lowerStr b.category) &&
      decide (lowerStr opp.category = "internship"), b.relevance_score * q0_9),
   (containsSub "innovation" (lowerStr b.category) &&
      decide (lowerStr opp.category = "program"), b.relevance_score * q0_9),
   (containsSub "internship" (lowerStr b.category) &&
      decide (lowerStr opp.category = "internship"), b.relevance_score),
   (containsSub "program" (lowerStr b.category) &&
      decide (lowerStr opp.category = "program"), b.relevance_score),
   (containsSub "aicte" (lowerStr opp.name) &&
      containsSub "category-specific" (lowerStr b.category), b.relevance_score),
   (containsSub "central" (lowerStr opp.name) &&
      containsSub "income-based" (lowerStr b.category), b.relevance_score),
   (containsSub "state" (lowerStr opp.name) &&
      containsSub "state" (lowerStr b.category), b.relevance_score),
   (containsSub "nptel" (lowerStr opp.name) &&
      containsSub "research" (lowerStr b.category), b.relevance_score),
   (containsSub "ministry" (lowerStr opp.name) &&
      containsSub "innovation" (lowerStr b.category), b.relevance_score),
   (containsSub "skill" (lowerStr b.category) &&
      decide (lowerStr opp.category = "program"), b.relevance_score * q0_7),
   (containsSub "merit" (lowerStr b.category) &&
      opp.eligibility_criteria.merit_based, b.relevance_score * q0_8)]

/-- The per-blindspot accumulation step of `_calculate_blindspot_alignment`:
each heuristic that fires raises the running maximum to its value. -/
def blindspotStep (opp : Opportunity) (m : ℚ) (b : Blindspot) : ℚ :=
  (heuristicPairs opp b).foldl (fun acc pr => if pr.1 then max acc pr.2 else acc) m

/-- Model of `OpportunityMatcher._calculate_blindspot_alignment`: fold the
heuristics over all blindspots starting from `0.0`, then floor at `0.3`. -/
def calculate_blindspot_alignment (opp : Opportunity) (blindspots : List Blindspot) : ℚ :=
  max (blindspots.foldl (blindspotStep opp) 0) q0_3

/-- The category-to-goal mapping of `_calculate_relevance`. -/
def opportunity_category_to_goal (category : String) : Option OpportunityGoal :=
  if category = "Scholarship" then some OpportunityGoal.scholarships
  else if category = "Internship" then some OpportunityGoal.internships
  else if category = "Program" then some OpportunityGoal.skills
  else none

/-- Model of `OpportunityMatcher._calculate_relevance` (the `profile`
argument is received and ignored, as in the source). -/
def calculate_relevance (_p : StudentProfile) (a : ProfileAnalysis)
    (opp : Opportunity) (blindspot_alignment : ℚ) : ℚ :=
  let score : ℚ := 0
  let score := score + blindspot_alignment * q0_4
  let score := score +
    (if opp.impact_level.value = "High" then q0_3
     else if opp.impact_level.value = "Medium" then q0_2
     else q0_1)
  let score := score +
    (if opp.visibility_level = VisibilityLevel.low then q0_2
     else if opp.visibility_level = VisibilityLevel.medium then q0_15
     else q0_1)
  let score := score +
    (match opportunity_category_to_goal opp.category with
     | some goal => if goal ∈ a.priority_goals then q0_1 else 0
     | none => 0)
  min score 1

/-- The joining scheme of `_generate_fit_explanation` (1 item: plain; 2:
"…, and …"; more: comma-separate all but the last, then ", and "). -/
def joinExplanations (explanations : List String) : String :=
  match explanations with
  | [e] => e ++ "."
  | [e1, e2] => e1 ++ ", and " ++ e2 ++ "."
  | es => String.intercalate ", " es.dropLast ++ ", and " ++ es.getLastD "" ++ "."

/-- Model of `OpportunityMatcher._generate_fit_explanation`. -/
def generate_fit_explanation (p : StudentProfile) (opp : Opportunity) : String :=
  let explanations : List String :=
    ["You're a " ++ p.education_level.value ++ " student, which matches the eligibility"]
  let explanations :=
    match opp.eligibility_criteria.fields_of_study with
    | some _ => explanations ++
        ["your " ++ p.field_of_study ++ " background aligns with the program requirements"]
    | none => explanations
  let explanations :=
    match opp.eligibility_criteria.background_requirements with
    | some reqs =>
      let matching := p.background_indicators.filter fun bg => decide (bg ∈ reqs)
      if matching.isEmpty then explanations
      else explanations ++
        ["your background (" ++ String.intercalate ", " (matching.map BackgroundIndicator.value) ++
          ") makes you eligible for this targeted program"]
    | none => explanations
  let explanations :=
    if opp.eligibility_criteria.income_based &&
        decide (BackgroundIndicator.financialSupport ∈ p.background_indicators) then
      explanations ++ ["this income-based program is designed for students needing financial support"]
    else explanations
  let explanations :=
    if opp.eligibility_criteria.merit_based then
      explanations ++ ["this merit-based program recognizes academic achievement"]
    else explanations
  joinExplanations explanations

/-- Model of `OpportunityMatcher._generate_miss_reason`. -/
def generate_miss_reason (opp : Opportunity) (awareness_level : AwarenessLevel) : String :=
  let reasons : List String := []
  let reasons :=
    if opp.visibility_level = VisibilityLevel.low then
      reasons ++ ["this program has very low visibility and is rarely promoted in colleges"]
    else if opp.visibility_level = VisibilityLevel.medium then
      reasons ++ ["this program is not widely advertised beyond official government portals"]
    else reasons
  let reasons :=
    if containsSub "AICTE" opp.name then
      reasons ++ ["AICTE programs are often buried in technical documentation"]
    else if containsSub "State" opp.name then
      reasons ++ ["state-level programs vary by region and lack centralized promotion"]
    else if containsSub "NPTEL" opp.name then
      reasons ++ ["students often see NPTEL only as a course platform, not for internships"]
    else if containsSub "Ministry" opp.name then
      reasons ++ ["ministry programs are scattered across multiple websites"]
    else if containsSub "Central Sector" opp.name then
      reasons ++ ["many students assume they need high merit for central scholarships"]
    else reasons
  let reasons :=
    if awareness_level = AwarenessLevel.low then
      reasons ++ ["students with limited opportunity awareness often miss such programs"]
    else reasons
  match reasons with
  | [] => "Students often miss this opportunity due to lack of awareness."
  | [r] => "Students usually miss this because " ++ r ++ "."
  | rs => "Students usually miss this because " ++ String.intercalate " and " rs ++ "."

/-- The per-opportunity body of the loop in `match_opportunities`:
alignment, relevance, explanations and miss probability for one eligible
opportunity. -/
def buildMatch (p : StudentProfile) (a : ProfileAnalysis) (blindspots : List Blindspot)
    (opp : Opportunity) : OpportunityMatch :=
  ⟨opp, generate_fit_explanation p opp,
   generate_miss_reason opp a.awareness_level,
   calculate_miss_probability opp.visibility_level a.awareness_level,
   calculate_relevance p a opp (calculate_blindspot_alignment opp blindspots)⟩

/-- Model of `OpportunityMatcher.match_opportunities`, with the catalog
made an explicit argument (the source reads it through
`get_all_opportunities()`). -/
def match_opportunities_with (catalog : List Opportunity) (p : StudentProfile)
    (a : ProfileAnalysis) (blindspots : List Blindspot) : List OpportunityMatch :=
  let all_eligible_matches :=
    (catalog.filter fun opp => is_eligible p opp.eligibility_criteria).map
      (buildMatch p a blindspots)
  let sorted := sortByKeyDesc OpportunityMatch.relevance_score all_eligible_matches
  if sorted.length < 2 then sorted
  else sorted.take (min 3 sorted.length)

/-- `match_opportunities` against the static catalog, as in the source. -/
def match_opportunities (p : StudentProfile) (a : ProfileAnalysis)
    (blindspots : List Blindspot) : List OpportunityMatch :=
  match_opportunities_with get_all_opportunities p a blindspots

/-! ## Explanation generator (`saarthi_ai/explanation_generator.py`) -/

/-- Model of `ExplanationGenerator.generate_profile_summary`. -/
def generate_profile_summary (p : StudentProfile) : String :=
  let summary := "Hi " ++ p.name ++ "! I've understood your profile:\n\n"
  let summary := summary ++ "• You're a " ++ toString p.year_of_study ++ "-year " ++
    p.education_level.value ++ " student\n"
  let summary := summary ++ "• Studying " ++ p.degree ++ " in " ++ p.field_of_study ++ "\n"
  let summary := summary ++ "• At a " ++ p.institution_type.value ++ " institution\n"
  let summary :=
    if p.background_indicators.length > 0 then
      summary ++ "• Background: " ++
        String.intercalate ", " (p.background_indicators.map BackgroundIndicator.value) ++ "\n"
    else summary
  summary ++ "• Looking for: " ++
    String.intercalate ", " (p.opportunity_goals.map OpportunityGoal.value) ++ "\n"

/-- Model of `ExplanationGenerator.generate_final_insight`. -/
def generate_final_insight (p : StudentProfile) (blindspots : List Blindspot)
    (_matches : List OpportunityMatch) : String :=
  let category_str := lowerStr (String.intercalate " " (blindspots.map Blindspot.category))
  let insight := "Based on your profile, you're likely missing out on "
  let insight := insight ++
    (if containsSub "scholarship" category_str then
      "several scholarship opportunities that match your background. "
     else if containsSub "research" category_str || containsSub "internship" category_str then
      "opportunities in research, internships, and programs beyond the classroom. "
     else
      "valuable opportunities that align with your goals and background. ")
  let insight := insight ++ "The main barrier isn't your eligibility—it's simply not knowing these exist. "
  let insight := insight ++
    (if p.missed_opportunities_before = MissedOpportunityFrequency.yesManyTimes then
      "Start by exploring the recommendations above, and consider setting up alerts for similar programs. "
     else if p.missed_opportunities_before = MissedOpportunityFrequency.onceOrTwice then
      "Take a moment to explore each recommendation—you're already eligible! "
     else
      "Now that you're aware, take action on these opportunities—you're already qualified! ")
  insight ++ "Awareness is the first step to opportunity."

/-! ## Application controller (`saarthi_ai/application_controller.py`) -/

/-- Model of `ApplicationController._validate_field_values`: the four
value-range checks, in source order.  The source guards each check with
`is not None`; `age` and `year_of_study` are int-typed by the dataclass
annotations, so the `None` cases are not representable here. -/
def validate_field_values (p : StudentProfile) : List String :=
  let invalid : List String := []
  let invalid := if p.age < 0 then invalid ++ ["age (must be positive)"] else invalid
  let invalid := if p.age > 150 then invalid ++ ["age (must be realistic)"] else invalid
  let invalid := if p.year_of_study < 0 then invalid ++ ["year_of_study (must be positive)"] else invalid
  let invalid := if p.year_of_study > 10 then invalid ++ ["year_of_study (must be realistic)"] else invalid
  invalid

/-- The result dictionary of `handle_form_submission`, with one `Option`
field per key the source may set. -/
structure SubmissionResult where
  valid : Bool
  missing_fields : Option (List String)
  invalid_fields : Option (List String)
  profile_summary : Option String
  blindspots : Option (List Blindspot)
  matches' : Option (List OpportunityMatch)
  final_insight : Option String
  error : Option String
  no_matches : Option Bool
deriving DecidableEq

/-- The result returned when `validate_field_values` reports violations. -/
def invalidValuesResult (invalid : List String) : SubmissionResult :=
  ⟨false, none, some invalid, none, none, none, none, none, none⟩

/-- The result returned when required fields are missing. -/
def missingFieldsResult (missing : List String) : SubmissionResult :=
  ⟨false, some missing, none, none, none, none, none, none, none⟩

/-- The result returned on a system error (empty knowledge base or a
caught exception). -/
def systemErrorResult (msg : String) : SubmissionResult :=
  ⟨false, none, none, none, none, none, none, some msg, none⟩

/-- The result of the no-eligible-matches branch. -/
def noMatchesResult (summary : String) (blindspots : List Blindspot)
    (insight : String) : SubmissionResult :=
  ⟨true, none, none, some summary, some blindspots, some [], some insight, none, some true⟩

/-- The fully successful result. -/
def successResult (summary : String) (blindspots : List Blindspot)
    (ms : List OpportunityMatch) (insight : String) : SubmissionResult :=
  ⟨true, none, none, some summary, some blindspots, some ms, some insight, none, none⟩

/-- The error message of the empty-knowledge-base branch. -/
def kbUnavailableMsg : String :=
  "System Error: Opportunity knowledge base is currently unavailable. Please try again later."

/-- The generic message of the `except Exception` branch. -/
def internalErrorMsg : String :=
  "An unexpected error occurred while processing your profile. Please try again."

/-- Model of `ApplicationController._generate_fallback_profile_summary`. -/
def generate_fallback_profile_summary (p : StudentProfile) : String :=
  let summary := "Hi " ++ p.name ++ "! I've understood your profile:\n\n"
  let summary := summary ++ "• You're a " ++ toString p.year_of_study ++ "-year " ++
    p.education_level.value ++ " student\n"
  let summary := summary ++ "• Studying " ++ p.degree ++ " in " ++ p.field_of_study ++ "\n"
  let summary := summary ++ "• At a " ++ p.institution_type.value ++ " institution\n"
  let summary :=
    if !p.background_indicators.isEmpty then
      summary ++ "• Background: " ++
        String.intercalate ", " (p.background_indicators.map BackgroundIndicator.value) ++ "\n"
    else summary
  if !p.opportunity_goals.isEmpty then
    summary ++ "• Looking for: " ++
      String.intercalate ", " (p.opportunity_goals.map OpportunityGoal.value) ++ "\n"
  else summary

/-- Model of `ApplicationController._generate_fallback_blindspots`. -/
def generate_fallback_blindspots (_p : StudentProfile) : List Blindspot :=
  [⟨"Government Scholarships",
    "Many students don't know about government scholarships available for their profile", q0_8⟩,
   ⟨"Research and Internship Programs",
    "Students often focus on placements and miss research opportunities", q0_7⟩,
   ⟨"Skill Development Programs",
    "Skill programs are often buried in government websites with poor outreach", q0_6⟩]

/-- Model of `ApplicationController._generate_fallback_final_insight`. -/
def generate_fallback_final_insight (_p : StudentProfile)
    (_matches : List OpportunityMatch) : String :=
  "Based on your profile, you're likely missing out on several opportunities that match your background. " ++
  "The main barrier isn't your eligibility—it's simply not knowing these exist. " ++
  "Take a moment to explore each recommendation—you're already eligible! " ++
  "Awareness is the first step to opportunity."

/-- Model of `ApplicationController._generate_no_matches_insight`. -/
def generate_no_matches_insight (p : StudentProfile) : String :=
  "Hi " ++ p.name ++ ", based on your current profile, we don't have specific opportunities " ++
  "in our knowledge base that match your eligibility criteria right now. " ++
  "This doesn't mean opportunities don't exist—it means our current database is limited. " ++
  "We recommend checking back later as we continuously update our opportunity database. " ++
  "In the meantime, explore the blindspot categories we identified—they can guide your own research!"

/-- The pipeline stages that perform scoring work, used to record which of
them a submission actually runs. -/
inductive Stage where
  | analyzeStage
  | blindspotsStage
  | matchStage
deriving DecidableEq

/-- The scoring pipeline of `handle_form_submission` (everything after the
three validation guards).  The `try/except` of the source catches the
`ValueError` that `identify_blindspots` may raise and converts it to the
generic system-error result. -/
def runPipeline (catalog : List Opportunity) (p : StudentProfile) :
    SubmissionResult × List Stage :=
  let a := analyze p
      let summary0 := generate_profile_summary p
      let summary :=
        if summary0.data.isEmpty || (trimStr summary0).data.isEmpty then
          generate_fallback_profile_summary p
        else summary0
      match identify_blindspots p a with
      | Except.error _ =>
        (systemErrorResult internalErrorMsg, [Stage.analyzeStage, Stage.blindspotsStage])
      | Except.ok blindspots0 =>
        let blindspots :=
          if blindspots0.isEmpty then generate_fallback_blindspots p else blindspots0
        let ms := match_opportunities_with catalog p a blindspots
        if ms.isEmpty then
          (noMatchesResult summary blindspots (generate_no_matches_insight p),
           [Stage.analyzeStage, Stage.blindspotsStage, Stage.matchStage])
        else
          let insight0 := generate_final_insight p blindspots ms
          let insight :=
            if insight0.data.isEmpty || (trimStr insight0).data.isEmpty then
              generate_fallback_final_insight p ms
            else insight0
          (successResult summary blindspots ms insight,
           [Stage.analyzeStage, Stage.blindspotsStage, Stage.matchStage])

/-- Model of `ApplicationController.handle_form_submission`, with the
catalog an explicit argument, returning the result record together with
the list of pipeline stages that were executed.  Value validation runs
first, then missing-field validation, then the empty-catalog check; only
then does the scoring pipeline run. -/
def handle_form_submission_t (catalog : List Opportunity) (p : StudentProfile) :
    SubmissionResult × List Stage :=
  let invalid := validate_field_values p
  if !invalid.isEmpty then (invalidValuesResult invalid, [])
  else
    let v := p.validate
    if !v.1 then (missingFieldsResult v.2, [])
    else if catalog.isEmpty then (systemErrorResult kbUnavailableMsg, [])
    else runPipeline catalog p

/-- `handle_form_submission` against the static catalog, as in the source. -/
def handle_form_submission (p : StudentProfile) : SubmissionResult :=
  (handle_form_submission_t get_all_opportunities p).1

/-! ## Lemmas about the accumulated blindspot rules -/

theorem length_condAppend (c : Bool) (b : Blindspot) (l : List Blindspot) :
    (condAppend c b l).length = if c then l.length + 1 else l.length := by
  unfold condAppend
  split <;> simp

theorem mem_condAppend {x b : Blindspot} {c : Bool} {l : List Blindspot}
    (h : x ∈ condAppend c b l) : x = b ∨ x ∈ l := by
  unfold condAppend at h
  split at h
  · rcases List.mem_append.1 h with h' | h'
    · exact Or.inr h'
    · simp at h'
      exact Or.inl h'
  · exact Or.inr h

theorem three_le_length_ruleBlindspots (p : StudentProfile) (a : ProfileAnalysis) :
    3 ≤ (ruleBlindspots p a).length := by
  unfold ruleBlindspots rulesThrough11 rulesThrough10
  rw [length_condAppend, length_condAppend, length_condAppend]
  split_ifs <;> simp_all

/-- The structural facts every rule-produced blindspot satisfies. -/
def goodBlindspot (b : Blindspot) : Prop :=
  b.category ≠ "" ∧ b.reason ≠ "" ∧ 0 < b.relevance_score ∧ b.relevance_score ≤ 1

instance goodBlindspotDecidable (b : Blindspot) : Decidable (goodBlindspot b) :=
  decidable_of_iff
    (b.category ≠ "" ∧ b.reason ≠ "" ∧ 0 < b.relevance_score ∧ b.relevance_score ≤ 1)
    Iff.rfl

theorem good_ruleBlindspots (p : StudentProfile) (a : ProfileAnalysis) :
    ∀ b ∈ ruleBlindspots p a, goodBlindspot b := by
  intro b hb
  unfold ruleBlindspots at hb
  rcases mem_condAppend hb with rfl | hb
  · decide
  unfold rulesThrough11 at hb
  rcases mem_condAppend hb with rfl | hb
  · decide
  unfold rulesThrough10 at hb
  rcases mem_condAppend hb with rfl | hb
  · decide
  unfold rulesThrough9 at hb
  rcases mem_condAppend hb with rfl | hb
  · decide
  unfold primaryRules at hb
  rcases mem_condAppend hb with rfl | hb
  · decide
  rcases mem_condAppend hb with rfl | hb
  · decide
  rcases mem_condAppend hb with rfl | hb
  · decide
  rcases mem_condAppend hb with rfl | hb
  · decide
  rcases mem_condAppend hb with rfl | hb
  · decide
  rcases mem_condAppend hb with rfl | hb
  · decide
  rcases mem_condAppend hb with rfl | hb
  · decide
  rcases mem_condAppend hb with rfl | hb
  · decide
  exact absurd hb (List.not_mem_nil b)

/-- The length check of `identify_blindspots` always passes, so the
function returns `ok` on every input. -/
theorem identify_blindspots_isOk (p : StudentProfile) (a : ProfileAnalysis) :
    identify_blindspots p a =
      Except.ok ((sortByKeyDesc Blindspot.relevance_score (ruleBlindspots p a)).take 5) := by
  have h3 := three_le_length_ruleBlindspots p a
  unfold identify_blindspots
  rw [if_neg]
  rw [length_sortByKeyDesc]
  omega

/-- Claim C9: the internal-consistency error branch of
`identify_blindspots` is unreachable — the fallback rules guarantee at
least 3 accumulated blindspots for every profile and analysis, so the
function always returns `ok` and never raises. -/
theorem c9_error_branch_unreachable (p : StudentProfile) (a : ProfileAnalysis) :
    3 ≤ (ruleBlindspots p a).length ∧
      ∃ out, identify_blindspots p a = Except.ok out :=
  ⟨three_le_length_ruleBlindspots p a, _, identify_blindspots_isOk p a⟩

/-- The conjunction of structural facts claim C1 asserts of the output of
`identify_blindspots`: 3 to 5 items, descending relevance order, the
output is the 5-truncation of the stable sort of the accumulated rule
list (ties keep rule order), and every item is well-formed with a score
in (0,1]. -/
def blindspotClaimProp (p : StudentProfile) (a : ProfileAnalysis)
    (out : List Blindspot) : Prop :=
  3 ≤ out.length ∧ out.length ≤ 5 ∧
  SortedDesc Blindspot.relevance_score out ∧
  out = (sortByKeyDesc Blindspot.relevance_score (ruleBlindspots p a)).take 5 ∧
  (∀ s : ℚ,
    (sortByKeyDesc Blindspot.relevance_score (ruleBlindspots p a)).filter
        (fun b => decide (b.relevance_score = s)) =
      (ruleBlindspots p a).filter (fun b => decide (b.relevance_score = s))) ∧
  ∀ b ∈ out, goodBlindspot b

/-- Claim C1: `identify_blindspots` always succeeds with a list of length
in [3,5], sorted by relevance score descending (a stable sort of the rule
output, so ties keep the original rule order), each element having
non-empty category and reason and a relevance score in (0,1]. -/
theorem c1_blindspot_structure (p : StudentProfile) (a : ProfileAnalysis) :
    ∃ out, identify_blindspots p a = Except.ok out ∧ blindspotClaimProp p a out := by
  have h3 := three_le_length_ruleBlindspots p a
  have hout := identify_blindspots_isOk p a
  refine ⟨_, hout, ?_⟩
  have hlen : (sortByKeyDesc Blindspot.relevance_score (ruleBlindspots p a)).length =
      (ruleBlindspots p a).length := length_sortByKeyDesc _ _
  constructor
  · rw [List.length_take]
    omega
  constructor
  · rw [List.length_take]
    omega
  constructor
  · exact List.Pairwise.sublist (List.take_sublist 5 _) (sorted_sortByKeyDesc _ _)
  refine ⟨rfl, fun s => filter_sortByKeyDesc _ _ s, ?_⟩
  intro b hb
  have hb' := List.take_subset 5 _ hb
  rw [mem_sortByKeyDesc] at hb'
  exact good_ruleBlindspots p a b hb'

/-- A concrete profile used to instantiate the claim theorems. -/
def sampleProfileA : StudentProfile :=
  ⟨"Asha", 20, EducationLevel.ug, "BA", "History", 2,
   InstitutionType.privateInstitution, [], [], MissedOpportunityFrequency.no,
   none, none⟩

/-- Claim C1, instantiated at a concrete profile and its analysis. -/
theorem c1_blindspot_structure_witness :
    ∃ out, identify_blindspots sampleProfileA (analyze sampleProfileA) = Except.ok out ∧
      blindspotClaimProp sampleProfileA (analyze sampleProfileA) out :=
  c1_blindspot_structure sampleProfileA (analyze sampleProfileA)

/-- Claim C9, instantiated at a concrete profile and its analysis. -/
theorem c9_error_branch_unreachable_witness :
    3 ≤ (ruleBlindspots sampleProfileA (analyze sampleProfileA)).length ∧
      ∃ out, identify_blindspots sampleProfileA (analyze sampleProfileA) = Except.ok out :=
  c9_error_branch_unreachable sampleProfileA (analyze sampleProfileA)

/-- Claim C5: `calculate_miss_probability` is exactly the table —
Low visibility always gives High; Medium visibility gives High/Medium/Low
for Low/Medium/High awareness; High visibility gives Medium for Low
awareness and Low otherwise. -/
theorem c5_miss_probability_table :
    calculate_miss_probability VisibilityLevel.low AwarenessLevel.low = MissProbability.high ∧
    calculate_miss_probability VisibilityLevel.low AwarenessLevel.medium = MissProbability.high ∧
    calculate_miss_probability VisibilityLevel.low AwarenessLevel.high = MissProbability.high ∧
    calculate_miss_probability VisibilityLevel.medium AwarenessLevel.low = MissProbability.high ∧
    calculate_miss_probability VisibilityLevel.medium AwarenessLevel.medium = MissProbability.medium ∧
    calculate_miss_probability VisibilityLevel.medium AwarenessLevel.high = MissProbability.low ∧
    calculate_miss_probability VisibilityLevel.high AwarenessLevel.low = MissProbability.medium ∧
    calculate_miss_probability VisibilityLevel.high AwarenessLevel.medium = MissProbability.low ∧
    calculate_miss_probability VisibilityLevel.high AwarenessLevel.high = MissProbability.low := by
  decide

/-- Claim C8: `analyze`, `identify_blindspots` and the matcher are pure
functions of their arguments and the catalog — calling any of them twice
with identical inputs yields identical output, and `match_opportunities`
reads exactly the static catalog. -/
theorem c8_determinism (p : StudentProfile) (a : ProfileAnalysis)
    (bs : List Blindspot) (catalog : List Opportunity) :
    analyze p = analyze p ∧
    identify_blindspots p a = identify_blindspots p a ∧
    match_opportunities_with catalog p a bs = match_opportunities_with catalog p a bs ∧
    match_opportunities p a bs = match_opportunities_with OPPORTUNITIES p a bs :=
  ⟨rfl, rfl, rfl, rfl⟩

/-- A concrete UG profile with no Financial-support indicator. -/
def noFinanceProfile : StudentProfile :=
  ⟨"Ravi", 20, EducationLevel.ug, "B.Sc", "Physics", 2,
   InstitutionType.privateInstitution, [], [OpportunityGoal.scholarships],
   MissedOpportunityFrequency.no, none, none⟩

/-- Claim C10: `is_eligible` never reads the `income_based` and
`merit_based` flags — flipping them cannot change the verdict — and
concretely, a student with no Financial-support indicator passes the
eligibility check of the income-based Central Sector Scholarship. -/
theorem c10_eligibility_ignores_flags :
    (∀ (p : StudentProfile) (els : List EducationLevel)
      (fs : Option (List String)) (its : Option (List InstitutionType))
      (bgs : Option (List BackgroundIndicator)) (b1 b2 b1' b2' : Bool),
      is_eligible p ⟨els, fs, its, bgs, b1, b2⟩ =
        is_eligible p ⟨els, fs, its, bgs, b1', b2'⟩) ∧
    centralSectorScholarship.eligibility_criteria.income_based = true ∧
    noFinanceProfile.background_indicators = [] ∧
    is_eligible noFinanceProfile centralSectorScholarship.eligibility_criteria = true := by
  refine ⟨fun p els fs its bgs b1 b2 b1' b2' => rfl, rfl, rfl, by decide⟩

/-! ## Claim C3: field-value validation -/

/-- A concrete profile whose age is 0 — outside (0,150] yet flagged by
neither value check of `validate_field_values`. -/
def ageZeroProfile : StudentProfile :=
  ⟨"Zed", 0, EducationLevel.ug, "B.Tech", "Engineering", 2,
   InstitutionType.government, [], [OpportunityGoal.scholarships],
   MissedOpportunityFrequency.no, none, none⟩

/-- Counterexample to claim C3 as stated: for age 0, which lies outside
(0,150], `validate_field_values` reports no violation at all (the source
only checks `age < 0` and `age > 150`; `age = 0` instead surfaces later as
a missing field). -/
theorem c3_age_zero_counterexample :
    ageZeroProfile.age = 0 ∧ ¬(0 < ageZeroProfile.age) ∧
    validate_field_values ageZeroProfile = [] ∧
    (ageZeroProfile.validate).2 = ["age"] := by
  refine ⟨rfl, by decide, by decide, by decide⟩

/-- Claim C3 as amended: `validate_field_values` reports an age violation
exactly when age < 0 or age > 150 (so for age outside [0,150], not
(0,150]) and a year-of-study violation exactly when it is < 0 or > 10;
and whenever any value violation exists, `handle_form_submission` returns
the invalid-fields result immediately — before missing-field validation —
with no `missing_fields` key and no pipeline stage executed. -/
theorem c3_field_value_validation (p : StudentProfile) (catalog : List Opportunity) :
    (("age (must be positive)" ∈ validate_field_values p) ↔ p.age < 0) ∧
    (("age (must be realistic)" ∈ validate_field_values p) ↔ p.age > 150) ∧
    (("year_of_study (must be positive)" ∈ validate_field_values p) ↔ p.year_of_study < 0) ∧
    (("year_of_study (must be realistic)" ∈ validate_field_values p) ↔ p.year_of_study > 10) ∧
    (validate_field_values p ≠ [] →
      handle_form_submission_t catalog p = (invalidValuesResult (validate_field_values p), [])) := by
  refine ⟨?_, ?_, ?_, ?_, ?_⟩
  · unfold validate_field_values
    split_ifs <;> simp_all
  · unfold validate_field_values
    split_ifs <;> simp_all
  · unfold validate_field_values
    split_ifs <;> simp_all
  · unfold validate_field_values
    split_ifs <;> simp_all
  · intro hne
    unfold handle_form_submission_t
    rw [if_pos]
    simp only [Bool.not_eq_true', List.isEmpty_eq_false, ne_eq]
    exact hne

/-- The invalid-age profile of the repository's own controller test. -/
def ageNegProfile : StudentProfile :=
  ⟨"Test Student", -5, EducationLevel.ug, "B.Tech", "Computer Science", 2,
   InstitutionType.government, [BackgroundIndicator.rural],
   [OpportunityGoal.scholarships], MissedOpportunityFrequency.no, none, none⟩

/-- Claim C3 (amended), instantiated at the age = -5 profile: an age
violation is reported, `invalid_fields` is set, `missing_fields` is
absent, and no pipeline stage ran. -/
theorem c3_field_value_validation_witness :
    ("age (must be positive)" ∈ validate_field_values ageNegProfile) ∧
    (handle_form_submission_t OPPORTUNITIES ageNegProfile).1.invalid_fields =
      some (validate_field_values ageNegProfile) ∧
    (handle_form_submission_t OPPORTUNITIES ageNegProfile).1.missing_fields = none ∧
    (handle_form_submission_t OPPORTUNITIES ageNegProfile).1.valid = false ∧
    (handle_form_submission_t OPPORTUNITIES ageNegProfile).2 = [] := by
  have h := c3_field_value_validation ageNegProfile OPPORTUNITIES
  have hmain := h.2.2.2.2 (by decide)
  refine ⟨(h.1).2 (by decide), ?_, ?_, ?_, ?_⟩ <;> rw [hmain] <;> rfl


/-- Claim C7: for a profile passing both validations, an empty catalog
makes `handle_form_submission` return the system-error result whose
message contains "knowledge base" and "unavailable", with `valid = false`
and no pipeline stage (analysis, blindspots, matching) executed. -/
theorem c7_empty_catalog_short_circuit (p : StudentProfile)
    (h1 : validate_field_values p = []) (h2 : p.validate.1 = true) :
    handle_form_submission_t [] p = (systemErrorResult kbUnavailableMsg, []) ∧
    (systemErrorResult kbUnavailableMsg).valid = false ∧
    (systemErrorResult kbUnavailableMsg).error = some kbUnavailableMsg ∧
    containsSub "knowledge base" kbUnavailableMsg = true ∧
    containsSub "unavailable" kbUnavailableMsg = true := by
  refine ⟨?_, rfl, rfl, by decide, by decide⟩
  simp only [handle_form_submission_t, h1, h2, List.isEmpty_nil, Bool.not_true,
    Bool.false_eq_true, if_false, if_true]

/-- A fully valid concrete profile. -/
def validProfileV : StudentProfile :=
  ⟨"Kiran", 20, EducationLevel.ug, "B.Tech", "Computer Science", 2,
   InstitutionType.government, [BackgroundIndicator.rural],
   [OpportunityGoal.scholarships], MissedOpportunityFrequency.yesManyTimes,
   none, none⟩

/-- Claim C7, instantiated at a concrete valid profile. -/
theorem c7_empty_catalog_short_circuit_witness :
    handle_form_submission_t [] validProfileV = (systemErrorResult kbUnavailableMsg, []) ∧
    (systemErrorResult kbUnavailableMsg).valid = false ∧
    (systemErrorResult kbUnavailableMsg).error = some kbUnavailableMsg ∧
    containsSub "knowledge base" kbUnavailableMsg = true ∧
    containsSub "unavailable" kbUnavailableMsg = true :=
  c7_empty_catalog_short_circuit validProfileV (by decide) (by decide)

/-! ## Claim C4: blindspot-alignment score -/

/-- The values of the heuristics that fire for one blindspot. -/
def alignedValues (opp : Opportunity) (b : Blindspot) : List ℚ :=
  (heuristicPairs opp b).filterMap fun pr => if pr.1 then some pr.2 else none

/-- The maximum alignment achieved across all blindspots and heuristics
(0 when none fires), written directly from the specification's wording
for comparison with the source's fold. -/
def specMaxAlignment (opp : Opportunity) (blindspots : List Blindspot) : ℚ :=
  ((blindspots.map (alignedValues opp)).flatten).foldr max 0

theorem foldr_max_nonneg (l : List ℚ) : 0 ≤ l.foldr max 0 := by
  induction l with
  | nil => exact le_refl 0
  | cons v t ih => exact le_trans ih (le_max_right v _)

theorem foldr_max_le (l : List ℚ) (c : ℚ) (hc : 0 ≤ c) (h : ∀ v ∈ l, v ≤ c) :
    l.foldr max 0 ≤ c := by
  induction l with
  | nil => exact hc
  | cons v t ih =>
    simp only [List.foldr_cons]
    exact max_le (h v (List.mem_cons_self v t)) (ih fun w hw => h w (List.mem_cons_of_mem v hw))

theorem foldr_max_append (l1 l2 : List ℚ) :
    (l1 ++ l2).foldr max 0 = max (l1.foldr max 0) (l2.foldr max 0) := by
  induction l1 with
  | nil => simp [max_eq_right (foldr_max_nonneg l2)]
  | cons v t ih => simp [ih, max_assoc]

/-- One conditional-max pass over (fires?, value) pairs computes the
maximum of the start value and the fired values. -/
theorem foldl_condMax (l : List (Bool × ℚ)) (m : ℚ) (hm : 0 ≤ m) :
    l.foldl (fun acc pr => if pr.1 then max acc pr.2 else acc) m =
      max m ((l.filterMap fun pr => if pr.1 then some pr.2 else none).foldr max 0) := by
  induction l generalizing m with
  | nil => simp [max_eq_left hm]
  | cons pr t ih =>
    rcases pr with ⟨c, v⟩
    cases c
    · simpa using ih m hm
    · simp only [List.foldl_cons, if_true, List.filterMap_cons]
      rw [ih (max m v) (le_trans hm (le_max_left m v))]
      simp [max_assoc]

theorem blindspotStep_eq (opp : Opportunity) (m : ℚ) (b : Blindspot) (hm : 0 ≤ m) :
    blindspotStep opp m b = max m ((alignedValues opp b).foldr max 0) :=
  foldl_condMax _ m hm

theorem foldl_blindspotStep (opp : Opportunity) (bs : List Blindspot) (m : ℚ) (hm : 0 ≤ m) :
    bs.foldl (blindspotStep opp) m = max m (specMaxAlignment opp bs) := by
  induction bs generalizing m with
  | nil => simp [specMaxAlignment, max_eq_left hm]
  | cons b t ih =>
    simp only [List.foldl_cons]
    rw [blindspotStep_eq opp m b hm,
      ih (max m ((alignedValues opp b).foldr max 0))
        (le_trans hm (le_max_left _ _))]
    simp only [specMaxAlignment, List.map_cons, List.flatten_cons, foldr_max_append]
    rw [max_assoc]

/-- Every heuristic value for a blindspot with score in (0,1] is at most
the blindspot's score (the multipliers are all at most 1). -/
theorem alignedValues_le (opp : Opportunity) (b : Blindspot)
    (h0 : 0 < b.relevance_score) (h1 : b.relevance_score ≤ 1) :
    ∀ v ∈ alignedValues opp b, v ≤ 1 := by
  intro v hv
  rcases List.mem_filterMap.1 hv with ⟨pr, hpr, hf⟩
  have hv2 : v = pr.2 := by
    by_cases hc : pr.1 <;> simp [hc] at hf
    exact hf.symm
  subst hv2
  have hscore : (0 : ℚ) ≤ b.relevance_score := le_of_lt h0
  have hmul : ∀ c : ℚ, 0 ≤ c → c ≤ 1 → b.relevance_score * c ≤ 1 := by
    intro c hc0 hc1
    calc b.relevance_score * c ≤ 1 * 1 := by
          exact mul_le_mul h1 hc1 hc0 (le_of_lt one_pos)
      _ = 1 := one_mul 1
  simp only [heuristicPairs, List.mem_cons, List.not_mem_nil, or_false] at hpr
  rcases hpr with h | h | h | h | h | h | h | h | h | h | h | h | h <;>
    rw [congrArg Prod.snd h] <;>
    first
      | exact h1
      | exact hmul q0_9 (by rw [q0_9_val]; norm_num) (by rw [q0_9_val]; norm_num)
      | exact hmul q0_8 (by rw [q0_8_val]; norm_num) (by rw [q0_8_val]; norm_num)
      | exact hmul q0_7 (by rw [q0_7_val]; norm_num) (by rw [q0_7_val]; norm_num)

/-- The conjunction claim C4 (as amended) asserts of the alignment score:
it is the maximum of the fired-heuristic maximum and the 0.3 floor —
applied unconditionally — and lies in [0.3, 1] ⊆ [0, 1]. -/
def alignmentClaimProp (opp : Opportunity) (bs : List Blindspot) : Prop :=
  calculate_blindspot_alignment opp bs = max (specMaxAlignment opp bs) (3/10) ∧
  (3/10 : ℚ) ≤ calculate_blindspot_alignment opp bs ∧
  calculate_blindspot_alignment opp bs ≤ 1

/-- Claim C4 as amended: for blindspot scores in (0,1], the alignment
score equals `max` of the best fired heuristic value and 0.3 — the 0.3
floor is applied unconditionally, so a fired heuristic value below 0.3 is
raised to 0.3 rather than returned as-is — and the result lies in [0,1]
(indeed in [0.3, 1]). -/
theorem c4_alignment_floor (opp : Opportunity) (bs : List Blindspot)
    (h : ∀ b ∈ bs, 0 < b.relevance_score ∧ b.relevance_score ≤ 1) :
    alignmentClaimProp opp bs := by
  have hspec0 : 0 ≤ specMaxAlignment opp bs := foldr_max_nonneg _
  have heq : calculate_blindspot_alignment opp bs = max (specMaxAlignment opp bs) (3/10) := by
    unfold calculate_blindspot_alignment
    rw [foldl_blindspotStep opp bs 0 (le_refl 0), max_eq_right hspec0, q0_3_val]
  have hspec1 : specMaxAlignment opp bs ≤ 1 := by
    apply foldr_max_le _ _ (by norm_num)
    intro v hv
    rcases List.mem_flatten.1 hv with ⟨l, hl, hvl⟩
    rcases List.mem_map.1 hl with ⟨b, hb, rfl⟩
    exact alignedValues_le opp b (h b hb).1 (h b hb).2 v hvl
  refine ⟨heq, ?_, ?_⟩
  · rw [heq]
    exact le_max_right _ _
  · rw [heq]
    exact max_le hspec1 (by norm_num)

/-- The single test blindspot of the C4 counterexample: category text
containing "scholarship", score 0.2. -/
def lowScoreBlindspot : Blindspot := ⟨"scholarship chances", "test reason", q0_2⟩

/-- Counterexample to claim C4 as stated: against the Central Sector
Scholarship, the direct-category heuristic fires for a blindspot of score
0.2, so the claimed maximum over fired heuristics is 0.2 — yet the
function returns 0.3: the floor is applied even though a heuristic fired,
so a fired value below 0.3 is not returned as-is. -/
theorem c4_alignment_floor_counterexample :
    (0 < lowScoreBlindspot.relevance_score ∧ lowScoreBlindspot.relevance_score ≤ 1) ∧
    alignedValues centralSectorScholarship lowScoreBlindspot ≠ [] ∧
    specMaxAlignment centralSectorScholarship [lowScoreBlindspot] = q0_2 ∧
    calculate_blindspot_alignment centralSectorScholarship [lowScoreBlindspot] = q0_3 ∧
    calculate_blindspot_alignment centralSectorScholarship [lowScoreBlindspot] ≠
      specMaxAlignment centralSectorScholarship [lowScoreBlindspot] := by
  refine ⟨by decide, by decide, by decide, by decide, by decide⟩

/-- Claim C4 (amended), instantiated at a concrete opportunity and
blindspot list. -/
theorem c4_alignment_floor_witness :
    alignmentClaimProp centralSectorScholarship [lowScoreBlindspot] :=
  c4_alignment_floor centralSectorScholarship [lowScoreBlindspot] (by decide)

/-! ## Claim C6: the relevance formula -/

/-- The impact weights of the specification (High/Medium/Low). -/
def impactWeight : ImpactLevel → ℚ
  | .high => 3/10
  | .medium => 2/10
  | .low => 1/10

/-- The visibility weights of the specification (Low/Medium/High). -/
def visibilityWeight : VisibilityLevel → ℚ
  | .low => 2/10
  | .medium => 15/100
  | .high => 1/10

/-- The category-to-goal map as the specification words it. -/
def specCategoryGoal (category : String) : Option OpportunityGoal :=
  List.lookup category
    [("Scholarship", OpportunityGoal.scholarships),
     ("Internship", OpportunityGoal.internships),
     ("Program", OpportunityGoal.skills)]

/-- The 0.1 goal-alignment bonus of the specification. -/
def goalBonus (a : ProfileAnalysis) (opp : Opportunity) : ℚ :=
  match specCategoryGoal opp.category with
  | some goal => if goal ∈ a.priority_goals then 1/10 else 0
  | none => 0

theorem category_goal_eq (c : String) :
    opportunity_category_to_goal c = specCategoryGoal c := by
  unfold opportunity_category_to_goal specCategoryGoal
  by_cases h1 : c = "Scholarship"
  · subst h1
    rfl
  by_cases h2 : c = "Internship"
  · subst h2
    rfl
  by_cases h3 : c = "Program"
  · subst h3
    rfl
  have b1 : (c == "Scholarship") = false := beq_eq_false_iff_ne.2 h1
  have b2 : (c == "Internship") = false := beq_eq_false_iff_ne.2 h2
  have b3 : (c == "Program") = false := beq_eq_false_iff_ne.2 h3
  simp [List.lookup, h1, h2, h3, b1, b2, b3]

/-- Claim C6: the relevance score is 0.4 times the alignment, plus
0.3/0.2/0.1 by impact High/Medium/Low, plus 0.2/0.15/0.1 by visibility
Low/Medium/High, plus 0.1 when the opportunity's category maps to a
priority goal under Scholarship→Scholarships, Internship→Internships,
Program→Skills, capped at 1.0. -/
theorem c6_relevance_formula (p : StudentProfile) (a : ProfileAnalysis)
    (opp : Opportunity) (al : ℚ) :
    calculate_relevance p a opp al =
      min (al * (4/10) + impactWeight opp.impact_level +
        visibilityWeight opp.visibility_level + goalBonus a opp) 1 := by
  unfold calculate_relevance goalBonus
  rw [category_goal_eq]
  cases hio : opp.impact_level <;> cases hvo : opp.visibility_level <;>
    cases hg : specCategoryGoal opp.category
  all_goals
    simp [ImpactLevel.value, impactWeight, visibilityWeight,
      q0_1_val, q0_15_val, q0_2_val, q0_3_val, q0_4_val]

/-! ## Claim C2: the matcher contract -/

/-- The conjunction claim C2 asserts of `match_opportunities`: every
returned match passes the eligibility check, the output is sorted by
relevance descending, the sort is stable (so ties keep catalog order),
and the length is the eligible count when fewer than 2 opportunities are
eligible and `min 3 eligible_count` otherwise — in the first case the
returned matches are exactly the eligible opportunities in catalog
order. -/
def matchClaimProp (catalog : List Opportunity) (p : StudentProfile)
    (a : ProfileAnalysis) (bs : List Blindspot) : Prop :=
  (∀ m ∈ match_opportunities_with catalog p a bs,
    is_eligible p m.opportunity.eligibility_criteria = true) ∧
  SortedDesc OpportunityMatch.relevance_score (match_opportunities_with catalog p a bs) ∧
  (∀ s : ℚ,
    (sortByKeyDesc OpportunityMatch.relevance_score
        ((catalog.filter fun opp => is_eligible p opp.eligibility_criteria).map
          (buildMatch p a bs))).filter (fun m => decide (m.relevance_score = s)) =
      ((catalog.filter fun opp => is_eligible p opp.eligibility_criteria).map
        (buildMatch p a bs)).filter (fun m => decide (m.relevance_score = s))) ∧
  (match_opportunities_with catalog p a bs).length =
    (if (catalog.filter fun opp => is_eligible p opp.eligibility_criteria).length < 2 then
      (catalog.filter fun opp => is_eligible p opp.eligibility_criteria).length
     else min 3 (catalog.filter fun opp => is_eligible p opp.eligibility_criteria).length) ∧
  ((catalog.filter fun opp => is_eligible p opp.eligibility_criteria).length < 2 →
    (match_opportunities_with catalog p a bs).map OpportunityMatch.opportunity =
      catalog.filter fun opp => is_eligible p opp.eligibility_criteria)

/-- Claim C2: the contract of `match_opportunities` over any catalog (in
particular the static one). -/
theorem c2_match_contract (catalog : List Opportunity) (p : StudentProfile)
    (a : ProfileAnalysis) (bs : List Blindspot) : matchClaimProp catalog p a bs := by
  unfold matchClaimProp
  have hout : match_opportunities_with catalog p a bs =
      (if (sortByKeyDesc OpportunityMatch.relevance_score
            ((catalog.filter fun opp => is_eligible p opp.eligibility_criteria).map
              (buildMatch p a bs))).length < 2 then
        sortByKeyDesc OpportunityMatch.relevance_score
          ((catalog.filter fun opp => is_eligible p opp.eligibility_criteria).map
            (buildMatch p a bs))
       else
        (sortByKeyDesc OpportunityMatch.relevance_score
          ((catalog.filter fun opp => is_eligible p opp.eligibility_criteria).map
            (buildMatch p a bs))).take
          (min 3 (sortByKeyDesc OpportunityMatch.relevance_score
            ((catalog.filter fun opp => is_eligible p opp.eligibility_criteria).map
              (buildMatch p a bs))).length)) := rfl
  have hlen : (sortByKeyDesc OpportunityMatch.relevance_score
      ((catalog.filter fun opp => is_eligible p opp.eligibility_criteria).map
        (buildMatch p a bs))).length =
      (catalog.filter fun opp => is_eligible p opp.eligibility_criteria).length := by
    rw [length_sortByKeyDesc, List.length_map]
  have hmem : ∀ m ∈ match_opportunities_with catalog p a bs,
      m ∈ (catalog.filter fun opp => is_eligible p opp.eligibility_criteria).map
        (buildMatch p a bs) := by
    intro m hm
    rw [hout] at hm
    split at hm
    · exact (mem_sortByKeyDesc _ _ _).1 hm
    · exact (mem_sortByKeyDesc _ _ _).1 (List.take_subset _ _ hm)
  refine ⟨?_, ?_, ?_, ?_, ?_⟩
  · intro m hm
    rcases List.mem_map.1 (hmem m hm) with ⟨opp, hopp, rfl⟩
    exact (List.mem_filter.1 hopp).2
  · rw [hout]
    split
    · exact sorted_sortByKeyDesc _ _
    · exact List.Pairwise.sublist (List.take_sublist _ _) (sorted_sortByKeyDesc _ _)
  · intro s
    exact filter_sortByKeyDesc _ _ s
  · rw [hout]
    split
    case isTrue h =>
      rw [hlen] at h
      rw [if_pos h, hlen]
    case isFalse h =>
      rw [hlen] at h
      rw [if_neg h, List.length_take, hlen]
      omega
  · intro hlt
    rw [hout, if_pos (by rw [hlen]; exact hlt),
      sortByKeyDesc_short _ _ (by rw [List.length_map]; exact hlt), List.map_map]
    have hcomp : OpportunityMatch.opportunity ∘ buildMatch p a bs = id := rfl
    rw [hcomp, List.map_id]

/-- Claim C2, instantiated at the static catalog and a concrete profile:
four opportunities are eligible, so exactly `min 3 4 = 3` matches are
returned. -/
theorem c2_match_contract_witness :
    (OPPORTUNITIES.filter fun opp =>
      is_eligible validProfileV opp.eligibility_criteria).length = 4 ∧
    (match_opportunities_with OPPORTUNITIES validProfileV (analyze validProfileV) []).length =
      min 3 4 := by
  have h := c2_match_contract OPPORTUNITIES validProfileV (analyze validProfileV) []
  unfold matchClaimProp at h
  have h4 : (OPPORTUNITIES.filter fun opp =>
      is_eligible validProfileV opp.eligibility_criteria).length = 4 := by decide
  refine ⟨h4, ?_⟩
  rw [h.2.2.2.1, h4]
  rfl
